import Mathlib

/-!
Verification development for the Supply Planning and Procurement Decision
Engine of the health-ai-ecosystem repository.  The Python components under
src/agentic_ai and src/ai_core are shallowly embedded here: floats become
rationals (reals where a square root is taken), pandas NaN cells become
Option values, and per-row loops become structural recursion over lists.
Python round(x, n) is banker rounding (round half to even); it is modelled
exactly by pyRoundQ below.
-/

namespace HealthAI

/-- Python round(x) on a rational: round half to even (banker rounding). -/
def pyRoundQ (x : ℚ) : ℤ :=
  if x - ⌊x⌋ = 1/2 then (if 2 ∣ ⌊x⌋ then ⌊x⌋ else ⌊x⌋ + 1) else round x

/-- Python round(x, n) on a rational: banker rounding at n decimal digits. -/
def roundQ (n : ℕ) (x : ℚ) : ℚ := (pyRoundQ ((10:ℚ)^n * x) : ℚ) / (10:ℚ)^n

theorem pyRoundQ_nonneg {x : ℚ} (hx : 0 ≤ x) : 0 ≤ pyRoundQ x := by
  unfold pyRoundQ
  by_cases h : x - ⌊x⌋ = 1/2
  · have hfl : (0:ℤ) ≤ ⌊x⌋ := Int.le_floor.mpr (by exact_mod_cast hx)
    simp only [h, if_true]
    by_cases h2 : 2 ∣ ⌊x⌋ <;> simp [h2] <;> omega
  · simp only [h, if_false]
    rw [round_eq]
    refine Int.le_floor.mpr ?_
    push_cast
    linarith

theorem roundQ_nonneg (n : ℕ) {x : ℚ} (hx : 0 ≤ x) : 0 ≤ roundQ n x := by
  unfold roundQ
  have h1 : (0:ℚ) ≤ ((10:ℚ)^n * x) := by positivity
  have h2 : (0:ℤ) ≤ pyRoundQ ((10:ℚ)^n * x) := pyRoundQ_nonneg h1
  have h3 : (0:ℚ) ≤ (pyRoundQ ((10:ℚ)^n * x) : ℚ) := by exact_mod_cast h2
  positivity

/-!
## InventorySimulationAgent (src/agentic_ai/inventory_simulation_agent.py)

The simulate method groups the merged forecast frame by (facility, item) and
runs, per group, a daily loop over rows sorted by date.  We embed the loop for
one group.  Dates are integers (days); a pending order is a pair of arrival
day and quantity.  The per-group policy parameters rp (reorder point) and
avgd (average daily demand) are the first non-null values of the merged
columns, hence Option rationals; lead time is filled with 7.0 upstream and is
a per-row rational.  A null forecast cell is consumed as 0.0 (line 125).
-/

/-- One pending order: arrival day and quantity (line 112). -/
abbrev Pending := List (ℤ × ℚ)

/-- Per-group policy parameters of InventorySimulationAgent.simulate. -/
structure SimParams where
  rp : Option ℚ
  avgd : Option ℚ
  order_up_to_days : ℕ := 14
  min_order_qty : ℚ := 0
deriving DecidableEq

/-- One merged forecast row for a group: date, forecast cell, lead time. -/
structure DayInput where
  ds : ℤ
  forecast : Option ℚ
  lead_time : ℚ
deriving DecidableEq

/-- One output row of the simulation (the dict appended at lines 161-175). -/
structure SimRow where
  ds : ℤ
  forecast : ℚ
  stock_on_hand : ℚ
  inventory_position : ℚ
  days_of_cover : ℚ
  reorder_point : Option ℚ
  lead_time_days : ℤ
  reorder_now : Bool
  order_qty : ℚ
  order_arrival_ds : Option ℤ
  outstanding_orders_qty : ℚ
deriving DecidableEq

/-- can_order (line 121): both policy parameters present and avgd positive. -/
def canOrder (rp avgd : Option ℚ) : Bool :=
  rp.isSome && (match avgd with | some a => decide (0 < a) | none => false)

/-- Step 1, receive (lines 129-135): add arriving quantities to stock, keep
only orders arriving strictly after today. -/
def receiveStock (on_hand : ℚ) (po : Pending) (ds : ℤ) : ℚ × Pending :=
  (on_hand + ((po.filter (fun x => x.1 ≤ ds)).map Prod.snd).sum,
   po.filter (fun x => ¬ (x.1 ≤ ds)))

/-- Step 2, consume (line 138): stock is floored at zero. -/
def consume (on_hand demand : ℚ) : ℚ := max 0 (on_hand - demand)

/-- Stock on hand after the receive and consume steps of one day. -/
def stepOnHand (st : ℚ × Pending) (d : DayInput) : ℚ :=
  consume (receiveStock st.1 st.2 d.ds).1 (d.forecast.getD 0)

/-- Outstanding quantity after receipt (line 141). -/
def stepOutstanding (st : ℚ × Pending) (d : DayInput) : ℚ :=
  (((receiveStock st.1 st.2 d.ds).2).map Prod.snd).sum

/-- Inventory position after the receive and consume steps (line 142). -/
def stepPosition (st : ℚ × Pending) (d : DayInput) : ℚ :=
  stepOnHand st d + stepOutstanding st d

/-- lt_days (line 127): int(max(0, round(lt))). -/
def ltDaysOf (lt : ℚ) : ℤ := max 0 (pyRoundQ lt)

/-- Days-of-cover denominator (line 158): avgd when present and positive,
otherwise max(demand, 1e-6). -/
def docDenom (avgd : Option ℚ) (demand : ℚ) : ℚ :=
  match avgd with
  | some a => if 0 < a then a else max demand (1/1000000)
  | none => max demand (1/1000000)

/-- Step 4, the reorder decision (lines 144-155), as a function of the
position after receive and consume, the remaining order book, the current day
and lt_days: returns (reorder_now, order_qty, arrival_date, new order book). -/
def orderDecision (p : SimParams) (inv_position : ℚ) (po : Pending)
    (ds lt_days : ℤ) : Bool × ℚ × Option ℤ × Pending :=
  if canOrder p.rp p.avgd && decide (inv_position ≤ p.rp.getD 0) then
    let order_qty := max p.min_order_qty (p.avgd.getD 0 * p.order_up_to_days)
    let arrival := ds + lt_days
    (true, order_qty, some arrival,
      if 0 < order_qty then po ++ [(arrival, order_qty)] else po)
  else (false, 0, none, po)

/-- One day of InventorySimulationAgent.simulate (loop body, lines 123-175):
returns the new (on_hand, on_order) state and the emitted row. -/
def simStep (p : SimParams) (st : ℚ × Pending) (d : DayInput) :
    (ℚ × Pending) × SimRow :=
  let demand := d.forecast.getD 0
  let lt_days := ltDaysOf d.lead_time
  let rcv := receiveStock st.1 st.2 d.ds
  let on_hand := consume rcv.1 demand
  let outstanding := (rcv.2.map Prod.snd).sum
  let inv_position := on_hand + outstanding
  let ord := orderDecision p inv_position rcv.2 d.ds lt_days
  let days_of_cover := on_hand / docDenom p.avgd demand
  ((on_hand, ord.2.2.2),
   { ds := d.ds
     forecast := demand
     stock_on_hand := roundQ 2 on_hand
     inventory_position := roundQ 2 inv_position
     days_of_cover := roundQ 2 days_of_cover
     reorder_point := p.rp.map (roundQ 2)
     lead_time_days := lt_days
     reorder_now := ord.1
     order_qty := roundQ 2 ord.2.1
     order_arrival_ds := ord.2.2.1
     outstanding_orders_qty := roundQ 2 outstanding })

/-- The daily loop of simulate for one (facility, item) group. -/
def simRun (p : SimParams) (st : ℚ × Pending) : List DayInput → List SimRow
  | [] => []
  | d :: ds =>
    let r := simStep p st d
    r.2 :: simRun p r.1 ds

/-- InventorySimulationAgent.simulate for one group, starting from the first
row of the stock column and an empty order book (lines 111-112). -/
def simulate (p : SimParams) (starting_stock : ℚ) (days : List DayInput) :
    List SimRow :=
  simRun p (starting_stock, []) days

theorem simStep_stock_nonneg (p : SimParams) (st : ℚ × Pending) (d : DayInput) :
    0 ≤ (simStep p st d).2.stock_on_hand := by
  have h : (simStep p st d).2.stock_on_hand
      = roundQ 2 (consume (receiveStock st.1 st.2 d.ds).1 (d.forecast.getD 0)) := rfl
  rw [h]
  exact roundQ_nonneg 2 (le_max_left 0 _)

theorem simRun_stock_nonneg (p : SimParams) (st : ℚ × Pending)
    (days : List DayInput) :
    ∀ row ∈ simRun p st days, 0 ≤ row.stock_on_hand := by
  induction days generalizing st with
  | nil => intro row h; simp [simRun] at h
  | cons d ds ih =>
    intro row h
    simp only [simRun, List.mem_cons] at h
    rcases h with h | h
    · rw [h]; exact simStep_stock_nonneg p st d
    · exact ih _ row h

end HealthAI

/-- Claim C1: for every demand series whose forecast cells are all
non-negative and any non-negative starting stock, every per-day row produced
by InventorySimulationAgent.simulate has stock_on_hand at least 0: the
consume step floors on-hand stock at zero and receipts only add stock. -/
theorem C1_simulate_stock_nonneg (p : HealthAI.SimParams) (start : ℚ)
    (days : List HealthAI.DayInput) (hstart : 0 ≤ start)
    (hdem : ∀ d ∈ days, 0 ≤ d.forecast.getD 0) :
    ∀ row ∈ HealthAI.simulate p start days, 0 ≤ row.stock_on_hand :=
  HealthAI.simRun_stock_nonneg p (start, []) days

namespace HealthAI

/-- A default row used to take heads of concrete simulation outputs. -/
def someRow : SimRow :=
  { ds := 0, forecast := 0, stock_on_hand := 0, inventory_position := 0,
    days_of_cover := 0, reorder_point := none, lead_time_days := 0,
    reorder_now := false, order_qty := 0, order_arrival_ds := none,
    outstanding_orders_qty := 0 }

/-- Concrete parameters for the C1 witness. -/
def p1 : SimParams := { rp := some 10, avgd := some 2 }

/-- Concrete day list for the C1 witness. -/
def days1 : List DayInput := [{ ds := 0, forecast := some 3, lead_time := 7 }]

end HealthAI

namespace HealthAI

/-!
## InventoryRiskAgent (src/agentic_ai/inventory_risk_agent.py)

The score method applies the inner function classify to every row.  A row
carries days_of_cover (NaN becomes none), reorder_now (a nullable boolean:
the code tests pd.notna(...) and bool(...)) and the volatility class string.
-/

/-- One row seen by InventoryRiskAgent.score. -/
structure RiskRow where
  days_of_cover : Option ℚ
  reorder_now : Option Bool
  volatility_class : String
deriving DecidableEq

/-- classify (lines 24-48): first-match rule chain over one row.  The string
is normalized as in the code, str(...).strip().lower(). -/
def classify (row : RiskRow) : String :=
  match row.days_of_cover with
  | none => "HIGH"
  | some doc =>
    if (match row.reorder_now with | some b => b | none => false) then "HIGH"
    else
      let vc := row.volatility_class.trim.toLower
      if doc ≤ 3 then "HIGH"
      else if vc = "erratic" then "HIGH"
      else if doc ≤ 7 then "MEDIUM"
      else if vc = "seasonal" then "MEDIUM"
      else "LOW"

/-- Modelled from the claim wording, for comparison with classify: rules
numbered (1)-(6) applied in first-match order, with the same string
normalization as the code. -/
def claimClassify (row : RiskRow) : String :=
  let vc := row.volatility_class.trim.toLower
  match row.days_of_cover with
  | none => "HIGH"
  | some doc =>
    if row.reorder_now = some true then "HIGH"
    else if doc ≤ 3 then "HIGH"
    else if vc = "erratic" then "HIGH"
    else if doc ≤ 7 ∨ vc = "seasonal" then "MEDIUM"
    else "LOW"

end HealthAI

/-- Claim C2: the per-row classify of InventoryRiskAgent.score applies the
rules in exactly the first-match order (1) missing days_of_cover HIGH,
(2) reorder_triggered HIGH, (3) days_of_cover at most 3 HIGH, (4) erratic
HIGH, (5) days_of_cover at most 7 or seasonal MEDIUM, (6) LOW; and every row
with reorder_now true and days_of_cover 10 classifies HIGH. -/
theorem C2_classify_rule_order :
    (∀ row : HealthAI.RiskRow,
      HealthAI.classify row = HealthAI.claimClassify row) ∧
    (∀ vc : String,
      HealthAI.classify
          { days_of_cover := some 10, reorder_now := some true,
            volatility_class := vc } = "HIGH") := by
  constructor
  · intro row
    rcases row with ⟨doc, rn, vc⟩
    cases doc with
    | none => rfl
    | some d =>
      cases rn with
      | none =>
        simp only [HealthAI.classify, HealthAI.claimClassify]
        split_ifs <;> simp_all <;> first | tauto | (exfalso; linarith)
      | some b =>
        cases b <;>
          simp only [HealthAI.classify, HealthAI.claimClassify] <;>
          split_ifs <;> simp_all <;> first | tauto | (exfalso; linarith)
  · intro vc
    rfl

namespace HealthAI

/-!
## ShortageSourcingEngine (src/ai_core/suppliers/shortage_sourcing.py)

is_shortage returns a pair of a boolean and a reason string.  The reason
strings are Python f-strings embedding the numbers with two-decimal
formatting; we model them by an inductive carrying the same numbers.
-/

/-- The context dataclass (lines 19-27). -/
structure ShortageContext where
  facility : String
  item : String
  days_of_cover : ℚ
  required_qty : ℚ
  trigger_doc_days : ℚ := 7
  service_level : Option ℚ := none
  service_level_threshold : ℚ := 9/10
deriving DecidableEq

/-- The reason value of is_shortage, one constructor per return site,
carrying the numbers the f-string would embed. -/
inductive ShortageReason
  | docLeTrigger (doc trig : ℚ)
  | serviceBelow (sl thr : ℚ)
  | noTrigger
deriving DecidableEq

/-- is_shortage (lines 41-48). -/
def is_shortage (ctx : ShortageContext) : Bool × ShortageReason :=
  if ctx.days_of_cover ≤ ctx.trigger_doc_days then
    (true, .docLeTrigger ctx.days_of_cover ctx.trigger_doc_days)
  else
    match ctx.service_level with
    | some sl =>
      if sl < ctx.service_level_threshold then (true, .serviceBelow sl ctx.service_level_threshold)
      else (false, .noTrigger)
    | none => (false, .noTrigger)

end HealthAI

/-- Claim C9: is_shortage returns true exactly when days_of_cover is at most
trigger_doc_days or the service level is known and below its threshold; the
reason reports the first true condition, days of cover being checked first;
and a context with days_of_cover 3 and trigger 7 yields a shortage whose
reason cites days_of_cover at most trigger. -/
theorem C9_is_shortage_trigger (ctx : HealthAI.ShortageContext) :
    ((HealthAI.is_shortage ctx).1 = true ↔
      ctx.days_of_cover ≤ ctx.trigger_doc_days ∨
      (∃ sl, ctx.service_level = some sl ∧ sl < ctx.service_level_threshold)) ∧
    (ctx.days_of_cover ≤ ctx.trigger_doc_days →
      (HealthAI.is_shortage ctx).2
        = .docLeTrigger ctx.days_of_cover ctx.trigger_doc_days) ∧
    (¬ ctx.days_of_cover ≤ ctx.trigger_doc_days →
      ∀ sl, ctx.service_level = some sl → sl < ctx.service_level_threshold →
      (HealthAI.is_shortage ctx).2
        = .serviceBelow sl ctx.service_level_threshold) := by
  unfold HealthAI.is_shortage
  refine ⟨?_, ?_, ?_⟩
  · by_cases h : ctx.days_of_cover ≤ ctx.trigger_doc_days
    · simp [h]
    · cases hsl : ctx.service_level with
      | none => simp [h, hsl]
      | some sl =>
        by_cases h2 : sl < ctx.service_level_threshold <;> simp [h, hsl, h2]
  · intro h; simp [h]
  · intro h sl hsl h2
    simp [h, hsl, h2]

namespace HealthAI

/-- The concrete context of the C9 scenario: days_of_cover 3, trigger 7. -/
def ctx9 : ShortageContext :=
  { facility := "f", item := "i", days_of_cover := 3, required_qty := 100 }

end HealthAI

/-- Witness for C9: the scenario context with days_of_cover 3 and trigger 7
is a shortage and the reason cites days_of_cover at most trigger. -/
theorem C9_is_shortage_trigger_witness :
    (HealthAI.is_shortage HealthAI.ctx9).1 = true ∧
    (HealthAI.is_shortage HealthAI.ctx9).2
      = HealthAI.ShortageReason.docLeTrigger 3 7 :=
  ⟨(C9_is_shortage_trigger HealthAI.ctx9).1.mpr (Or.inl (by norm_num [HealthAI.ctx9])),
   (C9_is_shortage_trigger HealthAI.ctx9).2.1 (by norm_num [HealthAI.ctx9])⟩

namespace HealthAI

/-!
## SupplierRanker (src/ai_core/suppliers/supplier_ranker.py)

rank adds normalized metric columns, a weighted score, a dense rank, and
returns the frame sorted ascending by supplier_score.
-/

/-- One supplier record as read by SupplierRanker.rank. -/
structure SupplierOffer where
  supplier_id : String
  price_per_unit : ℚ
  lead_time_days : ℚ
  lead_time_std : ℚ
  reliability_score : ℚ
  risk_score : ℚ
deriving DecidableEq

/-- Ranking weights (the dict passed to the constructor). -/
structure Weights where
  price : ℚ
  lead_time : ℚ
  reliability : ℚ
  risk : ℚ
deriving DecidableEq

/-- DEFAULT_WEIGHTS (supplier_ranker.py lines 3-8). -/
def DEFAULT_WEIGHTS : Weights :=
  { price := 3/10, lead_time := 3/10, reliability := 3/10, risk := 1/10 }

/-- EMERGENCY_WEIGHTS (shortage_sourcing.py lines 11-16). -/
def EMERGENCY_WEIGHTS : Weights :=
  { price := 1/10, lead_time := 2/5, reliability := 2/5, risk := 1/10 }

/-- Maximum of a pandas numeric column (the frames in play are non-empty; the
empty case is irrelevant and mapped to 0). -/
def seriesMax : List ℚ → ℚ
  | [] => 0
  | [x] => x
  | x :: y :: t => max x (seriesMax (y :: t))

/-- price_norm (line 18). -/
def priceNorm (pool : List SupplierOffer) (r : SupplierOffer) : ℚ :=
  r.price_per_unit / seriesMax (pool.map SupplierOffer.price_per_unit)

/-- lead_time_norm (lines 20-22). -/
def leadNorm (pool : List SupplierOffer) (r : SupplierOffer) : ℚ :=
  (r.lead_time_days + r.lead_time_std)
    / seriesMax (pool.map (fun s => s.lead_time_days + s.lead_time_std))

/-- supplier_score (lines 24-32): note that the reliability term is the raw
1 - reliability_score and the risk term is the raw risk_score; neither is
divided by its pool maximum. -/
def scoreOf (w : Weights) (pool : List SupplierOffer) (r : SupplierOffer) : ℚ :=
  w.price * priceNorm pool r
  + w.lead_time * leadNorm pool r
  + w.reliability * (1 - r.reliability_score)
  + w.risk * r.risk_score

/-- Modelled from the claim wording, for comparison with scoreOf: all four
metrics divided by their pool maximum. -/
def claimScoreOf (w : Weights) (pool : List SupplierOffer) (r : SupplierOffer) : ℚ :=
  w.price * priceNorm pool r
  + w.lead_time * leadNorm pool r
  + w.reliability * ((1 - r.reliability_score)
      / seriesMax (pool.map (fun s => 1 - s.reliability_score)))
  + w.risk * (r.risk_score / seriesMax (pool.map SupplierOffer.risk_score))

/-- pandas rank(method := dense) of a value within a column: one plus the
number of distinct smaller values, that is the number of distinct values not
exceeding it. -/
def denseRank (scores : List ℚ) (v : ℚ) : ℕ :=
  (scores.dedup.filter (fun s => s ≤ v)).length

/-- One row of the ranked output frame. -/
structure RankedSupplier where
  offer : SupplierOffer
  supplier_score : ℚ
  rank : ℕ
deriving DecidableEq

/-- The scored row built for one supplier. -/
def mkRanked (w : Weights) (pool : List SupplierOffer) (r : SupplierOffer) :
    RankedSupplier :=
  { offer := r, supplier_score := scoreOf w pool r,
    rank := denseRank (pool.map (scoreOf w pool)) (scoreOf w pool r) }

/-- SupplierRanker.rank (lines 15-36): score every row, then sort ascending
by supplier_score. -/
def SupplierRanker.rank (w : Weights) (pool : List SupplierOffer) :
    List RankedSupplier :=
  List.insertionSort (fun a b => a.supplier_score ≤ b.supplier_score)
    (pool.map (mkRanked w pool))

/-- Supplier A of the C7 counterexample pool. -/
def offerA : SupplierOffer :=
  { supplier_id := "a", price_per_unit := 1, lead_time_days := 1,
    lead_time_std := 0, reliability_score := 9/10, risk_score := 1/5 }

/-- Supplier B of the C7 counterexample pool. -/
def offerB : SupplierOffer :=
  { supplier_id := "b", price_per_unit := 1, lead_time_days := 1,
    lead_time_std := 0, reliability_score := 1/2, risk_score := 2/5 }

/-- The two-supplier pool of the C7 counterexample. -/
def poolC7 : List SupplierOffer := [offerA, offerB]

end HealthAI

/-- Counterexample for C7: in the two-supplier pool poolC7 the score rank
assigns to supplier A is 13/20, whereas the claimed formula with all four
metrics max-normalized gives 71/100: the reliability and risk terms are not
divided by their pool maxima. -/
theorem C7_counterexample :
    ((HealthAI.SupplierRanker.rank HealthAI.DEFAULT_WEIGHTS HealthAI.poolC7).map
        (fun r => r.supplier_score) = [13/20, 79/100]) ∧
    HealthAI.scoreOf HealthAI.DEFAULT_WEIGHTS HealthAI.poolC7 HealthAI.offerA
      = 13/20 ∧
    HealthAI.claimScoreOf HealthAI.DEFAULT_WEIGHTS HealthAI.poolC7 HealthAI.offerA
      = 71/100 ∧
    HealthAI.scoreOf HealthAI.DEFAULT_WEIGHTS HealthAI.poolC7 HealthAI.offerA
      ≠ HealthAI.claimScoreOf HealthAI.DEFAULT_WEIGHTS HealthAI.poolC7
        HealthAI.offerA := by
  have hA : HealthAI.scoreOf HealthAI.DEFAULT_WEIGHTS HealthAI.poolC7
      HealthAI.offerA = 13/20 := by
    norm_num [HealthAI.scoreOf, HealthAI.priceNorm, HealthAI.leadNorm,
      HealthAI.seriesMax, HealthAI.poolC7, HealthAI.offerA, HealthAI.offerB,
      HealthAI.DEFAULT_WEIGHTS]
  have hB : HealthAI.scoreOf HealthAI.DEFAULT_WEIGHTS HealthAI.poolC7
      HealthAI.offerB = 79/100 := by
    norm_num [HealthAI.scoreOf, HealthAI.priceNorm, HealthAI.leadNorm,
      HealthAI.seriesMax, HealthAI.poolC7, HealthAI.offerA, HealthAI.offerB,
      HealthAI.DEFAULT_WEIGHTS]
  have hC : HealthAI.claimScoreOf HealthAI.DEFAULT_WEIGHTS HealthAI.poolC7
      HealthAI.offerA = 71/100 := by
    norm_num [HealthAI.claimScoreOf, HealthAI.priceNorm, HealthAI.leadNorm,
      HealthAI.seriesMax, HealthAI.poolC7, HealthAI.offerA, HealthAI.offerB,
      HealthAI.DEFAULT_WEIGHTS]
  refine ⟨?_, hA, hC, by rw [hA, hC]; norm_num⟩
  show ((List.insertionSort _ [HealthAI.mkRanked _ _ HealthAI.offerA,
    HealthAI.mkRanked _ _ HealthAI.offerB]).map fun r => r.supplier_score) = _
  rw [List.insertionSort]
  rw [List.insertionSort]
  rw [List.insertionSort]
  rw [List.orderedInsert, List.orderedInsert]
  have : (HealthAI.mkRanked HealthAI.DEFAULT_WEIGHTS HealthAI.poolC7
      HealthAI.offerA).supplier_score
      ≤ (HealthAI.mkRanked HealthAI.DEFAULT_WEIGHTS HealthAI.poolC7
        HealthAI.offerB).supplier_score := by
    show HealthAI.scoreOf _ _ _ ≤ HealthAI.scoreOf _ _ _
    rw [hA, hB]; norm_num
  rw [if_pos this]
  show [HealthAI.scoreOf _ _ HealthAI.offerA,
    HealthAI.scoreOf _ _ HealthAI.offerB] = _
  rw [hA, hB]

/-- Claim C7 amended: SupplierRanker.rank normalizes the price and the lead
time (lead_time_days plus lead_time_std) by their pool maxima, but uses the
raw 1 - reliability_score and the raw risk_score; it forms the weighted sum
with the given weights (default price 0.30, lead_time 0.30, reliability 0.30,
risk 0.10), assigns a dense rank over the score column, and returns the rows
sorted ascending by supplier_score. -/
theorem C7_rank_amended (w : HealthAI.Weights)
    (pool : List HealthAI.SupplierOffer) :
    HealthAI.DEFAULT_WEIGHTS
      = { price := 3/10, lead_time := 3/10, reliability := 3/10,
          risk := 1/10 } ∧
    List.Pairwise (fun a b : HealthAI.RankedSupplier =>
      a.supplier_score ≤ b.supplier_score)
      (HealthAI.SupplierRanker.rank w pool) ∧
    (HealthAI.SupplierRanker.rank w pool).Perm
      (pool.map (HealthAI.mkRanked w pool)) ∧
    ∀ e ∈ HealthAI.SupplierRanker.rank w pool,
      e.supplier_score
        = w.price * (e.offer.price_per_unit
            / HealthAI.seriesMax (pool.map HealthAI.SupplierOffer.price_per_unit))
        + w.lead_time * ((e.offer.lead_time_days + e.offer.lead_time_std)
            / HealthAI.seriesMax
                (pool.map (fun s => s.lead_time_days + s.lead_time_std)))
        + w.reliability * (1 - e.offer.reliability_score)
        + w.risk * e.offer.risk_score
      ∧ e.rank = HealthAI.denseRank (pool.map (HealthAI.scoreOf w pool))
          e.supplier_score := by
  refine ⟨rfl, ?_, ?_, ?_⟩
  · haveI : IsTotal HealthAI.RankedSupplier
        (fun a b => a.supplier_score ≤ b.supplier_score) :=
      ⟨fun a b => le_total a.supplier_score b.supplier_score⟩
    haveI : IsTrans HealthAI.RankedSupplier
        (fun a b => a.supplier_score ≤ b.supplier_score) :=
      ⟨fun _ _ _ hab hbc => le_trans hab hbc⟩
    exact List.sorted_insertionSort _ _
  · exact List.perm_insertionSort _ _
  · intro e he
    rw [HealthAI.SupplierRanker.rank, List.mem_insertionSort] at he
    rcases List.mem_map.mp he with ⟨r, _, hr⟩
    subst hr
    exact ⟨rfl, rfl⟩

/-- Witness for C7 amended: the ranked row of supplier A in the concrete pool
poolC7 carries the amended score and the dense rank of that score. -/
theorem C7_rank_amended_witness :
    (HealthAI.mkRanked HealthAI.DEFAULT_WEIGHTS HealthAI.poolC7
        HealthAI.offerA).supplier_score
      = HealthAI.DEFAULT_WEIGHTS.price * (HealthAI.offerA.price_per_unit
          / HealthAI.seriesMax
              (HealthAI.poolC7.map HealthAI.SupplierOffer.price_per_unit))
      + HealthAI.DEFAULT_WEIGHTS.lead_time
          * ((HealthAI.offerA.lead_time_days + HealthAI.offerA.lead_time_std)
            / HealthAI.seriesMax
                (HealthAI.poolC7.map
                  (fun s => s.lead_time_days + s.lead_time_std)))
      + HealthAI.DEFAULT_WEIGHTS.reliability
          * (1 - HealthAI.offerA.reliability_score)
      + HealthAI.DEFAULT_WEIGHTS.risk * HealthAI.offerA.risk_score
    ∧ (HealthAI.mkRanked HealthAI.DEFAULT_WEIGHTS HealthAI.poolC7
        HealthAI.offerA).rank
      = HealthAI.denseRank
          (HealthAI.poolC7.map
            (HealthAI.scoreOf HealthAI.DEFAULT_WEIGHTS HealthAI.poolC7))
          (HealthAI.mkRanked HealthAI.DEFAULT_WEIGHTS HealthAI.poolC7
            HealthAI.offerA).supplier_score :=
  (C7_rank_amended HealthAI.DEFAULT_WEIGHTS HealthAI.poolC7).2.2.2
    (HealthAI.mkRanked HealthAI.DEFAULT_WEIGHTS HealthAI.poolC7 HealthAI.offerA)
    (by
      rw [HealthAI.SupplierRanker.rank, List.mem_insertionSort]
      exact List.mem_map_of_mem _ (by simp [HealthAI.poolC7]))

namespace HealthAI

/-!
## ProcurementOptimizer (src/ai_core/optimization/procurement_optimizer.py)

The method builds a MILP and hands it to an external solver (CBC through
pulp).  The solver itself is outside the embedding; we embed the constraint
system the code constructs (lines 69-93) and the result-collection phase
(lines 123-148) as a function of the solved variable values.  A solution the
solver reports as optimal satisfies the constraint system within solver
tolerance, so constraint consequences are stated for any satisfying point.
-/

/-- One supplier row as read by ProcurementOptimizer.optimize. -/
structure PoolSupplier where
  supplier_id : String
  supplier_name : String := ""
  price_per_unit : ℚ
  capacity_per_period : ℚ
  min_order_qty : ℚ
deriving DecidableEq

/-- OptimizationConfig with its dataclass defaults (lines 7-22). -/
structure OptimizationConfig where
  mode : String := "normal"
  max_share_normal : ℚ := 7/10
  max_share_emergency : ℚ := 1/2
  shortage_penalty_per_unit : ℚ := 5
  expiry_penalty_rate : ℚ := 1/4
  weight_procurement : ℚ := 1
  weight_expiry : ℚ := 1
  weight_shortage : ℚ := 1
deriving DecidableEq

/-- max_share selection (line 52). -/
def maxShare (cfg : OptimizationConfig) : ℚ :=
  if cfg.mode = "emergency" then cfg.max_share_emergency
  else cfg.max_share_normal

/-- The MILP constraint system of optimize (lines 63-93): x are order
quantities, y the binary use flags, shortage the soft-demand slack. -/
def feasible (cfg : OptimizationConfig) (pool : List PoolSupplier)
    (required : ℚ) (x y : String → ℚ) (shortage : ℚ) : Prop :=
  0 ≤ shortage ∧
  required ≤ (pool.map (fun s => x s.supplier_id)).sum + shortage ∧
  ∀ s ∈ pool,
    0 ≤ x s.supplier_id ∧
    (y s.supplier_id = 0 ∨ y s.supplier_id = 1) ∧
    x s.supplier_id ≤ s.capacity_per_period ∧
    x s.supplier_id ≤ maxShare cfg * required ∧
    s.min_order_qty * y s.supplier_id ≤ x s.supplier_id ∧
    x s.supplier_id ≤ s.capacity_per_period * y s.supplier_id

/-- One row of the result frame (lines 129-135). -/
structure ResultRow where
  supplier_id : String
  supplier_name : String
  ordered_qty : ℚ
  used_flag : ℤ
  price_per_unit : ℚ
deriving DecidableEq

/-- Result collection (lines 123-135): a row is appended only for suppliers
with positive solved quantity. -/
def collectSol (pool : List PoolSupplier) (xval yval : String → ℚ) :
    List ResultRow :=
  pool.filterMap (fun s =>
    if 0 < xval s.supplier_id then
      some { supplier_id := s.supplier_id, supplier_name := s.supplier_name,
             ordered_qty := roundQ 2 (xval s.supplier_id),
             used_flag := pyRoundQ (yval s.supplier_id),
             price_per_unit := s.price_per_unit }
    else none)

/-- Columns of pandas DataFrame(sol): a frame built from an empty record list
has no columns at all. -/
def solColumns (sol : List ResultRow) : List String :=
  if sol.isEmpty then []
  else ["supplier_id", "supplier_name", "ordered_qty", "used_flag",
        "price_per_unit"]

/-- pandas sort_values(ordered_qty, ascending := False) on the result frame:
raises KeyError when the column is absent, which happens exactly when the
frame was built from no records. -/
def sortByOrderedQtyDesc (sol : List ResultRow) :
    Except String (List ResultRow) :=
  if "ordered_qty" ∈ solColumns sol then
    Except.ok (List.insertionSort (fun a b => b.ordered_qty ≤ a.ordered_qty) sol)
  else Except.error "KeyError: ordered_qty"

/-- The allocation table optimize returns (line 148), as a function of the
solved variable values. -/
def optimizeResultTable (pool : List PoolSupplier) (xval yval : String → ℚ) :
    Except String (List ResultRow) :=
  sortByOrderedQtyDesc (collectSol pool xval yval)

end HealthAI

/-- Claim C3: for any point satisfying the constraint system optimize builds
(hence any allocation an optimal solve returns, within solver tolerance),
every supplier with positive ordered quantity is ordered at least its
min_order_qty, and no ordered quantity exceeds max_share times required_qty,
where max_share is 0.70 in normal mode and 0.50 in emergency mode under the
default configuration. -/
theorem C3_optimizer_moq_and_exposure (cfg : HealthAI.OptimizationConfig)
    (pool : List HealthAI.PoolSupplier) (required : ℚ)
    (x y : String → ℚ) (shortage : ℚ)
    (hpool : pool ≠ [])
    (hfeas : HealthAI.feasible cfg pool required x y shortage) :
    (∀ s ∈ pool,
      (0 < x s.supplier_id → s.min_order_qty ≤ x s.supplier_id) ∧
      x s.supplier_id ≤ HealthAI.maxShare cfg * required) ∧
    HealthAI.maxShare { mode := "normal" } = 7/10 ∧
    HealthAI.maxShare { mode := "emergency" } = 1/2 := by
  refine ⟨?_, rfl, rfl⟩
  intro s hs
  obtain ⟨-, -, hrow⟩ := hfeas
  obtain ⟨hx0, hy, -, hshare, hmoq, hlink⟩ := hrow s hs
  refine ⟨?_, hshare⟩
  intro hxpos
  rcases hy with hy | hy
  · rw [hy, mul_zero] at hlink
    linarith
  · rw [hy, mul_one] at hmoq
    exact hmoq

namespace HealthAI

/-- The single supplier of the C3 witness. -/
def supW : PoolSupplier :=
  { supplier_id := "s1", price_per_unit := 2, capacity_per_period := 100,
    min_order_qty := 10 }

/-- Solved order quantities of the C3 witness. -/
def xW : String → ℚ := fun _ => 35

/-- Solved use flags of the C3 witness. -/
def yW : String → ℚ := fun _ => 1

end HealthAI

/-- Witness for C3: a concrete feasible point with one supplier, required
quantity 50, order 35, shortage 15, in the default normal configuration. -/
theorem C3_optimizer_moq_and_exposure_witness :
    (∀ s ∈ [HealthAI.supW],
      (0 < HealthAI.xW s.supplier_id →
        s.min_order_qty ≤ HealthAI.xW s.supplier_id) ∧
      HealthAI.xW s.supplier_id
        ≤ HealthAI.maxShare {} * 50) ∧
    HealthAI.maxShare { mode := "normal" } = 7/10 ∧
    HealthAI.maxShare { mode := "emergency" } = 1/2 :=
  C3_optimizer_moq_and_exposure {} [HealthAI.supW] 50 HealthAI.xW HealthAI.yW 15
    (by simp)
    (by
      refine ⟨by norm_num, ?_, ?_⟩
      · simp [HealthAI.xW, HealthAI.supW]
        norm_num
      · intro s hs
        simp only [List.mem_singleton] at hs
        subst hs
        refine ⟨by norm_num [HealthAI.xW], Or.inr rfl, ?_, ?_, ?_, ?_⟩
        · norm_num [HealthAI.xW, HealthAI.supW]
        · rw [show HealthAI.maxShare {} = 7/10 from rfl]
          norm_num [HealthAI.xW]
        · norm_num [HealthAI.xW, HealthAI.yW, HealthAI.supW]
        · norm_num [HealthAI.xW, HealthAI.yW, HealthAI.supW])

/-- Claim C10: when the solved point assigns quantity zero to every supplier
of a non-empty pool (as with required_qty 0, where ordering nothing with zero
shortage is optimal), the result-collection phase of optimize builds an empty
record list, the frame has no ordered_qty column, and sort_values raises a
KeyError instead of returning an empty plan. -/
theorem C10_optimizer_empty_solution_raises (pool : List HealthAI.PoolSupplier)
    (xval yval : String → ℚ) (hpool : pool ≠ [])
    (hzero : ∀ s ∈ pool, xval s.supplier_id = 0) :
    HealthAI.optimizeResultTable pool xval yval
      = Except.error "KeyError: ordered_qty" := by
  have hcollect : HealthAI.collectSol pool xval yval = [] := by
    rw [HealthAI.collectSol, List.filterMap_eq_nil_iff]
    intro s hs
    rw [if_neg]
    rw [hzero s hs]
    norm_num
  rw [HealthAI.optimizeResultTable, hcollect]
  rfl

/-- Witness for C10: one supplier, all-zero solution, the table raises. -/
theorem C10_optimizer_empty_solution_raises_witness :
    HealthAI.optimizeResultTable [HealthAI.supW] (fun _ => 0) HealthAI.yW
      = Except.error "KeyError: ordered_qty" :=
  C10_optimizer_empty_solution_raises [HealthAI.supW] (fun _ => 0) HealthAI.yW
    (by simp) (by intro s _; rfl)

namespace HealthAI

/-!
## ReorderAgent (src/agentic_ai/reorder_agent.py)

compute_reorder_point merges the lead-time frame into the forecast frame and
loops over (facility, item) groups.  Per group it takes the mean demand, the
population standard deviation (ddof 0), and the mean lead time; a group whose
mean lead time is null (pandas mean skips NaN cells, so this means every
lead-time cell of the group is missing) is skipped with continue; every other
group contributes one output row.  The trailing "or 0.0" on the standard
deviation only replaces a 0.0 by itself for the non-empty, non-null demand
columns modelled here.  Python ** 0.5 on a non-negative numpy float is the
square root; the embedding uses Real.sqrt (which also maps the negative
lead-time NaN case to 0, a case no claim touches).  The emitted values are
rounded like the code does (round 2 for demand and stocks, round 1 for lead
time); safetyStock and reorderPoint name the unrounded line 42-43 values.
-/

/-- One merged (facility, item) group: the demand cells and the lead-time
cells of its rows (a missing lead-time cell is none). -/
structure ReorderGroup where
  facility : String
  item : String
  demands : List ℚ
  lead_times : List (Option ℚ)
deriving DecidableEq

/-- pandas Series.mean with skipna: none exactly when every cell is null. -/
def seriesMeanSkipNa (l : List (Option ℚ)) : Option ℚ :=
  let v := l.filterMap id
  if v.isEmpty then none else some (v.sum / v.length)

/-- avg_demand (line 35): mean of the demand column of the group. -/
def avgDemand (g : ReorderGroup) : ℚ := g.demands.sum / g.demands.length

/-- Population variance of the demand column (std with ddof 0, squared). -/
def demandVar (g : ReorderGroup) : ℚ :=
  ((g.demands.map (fun x => (x - avgDemand g)^2)).sum) / g.demands.length

/-- std_demand (line 36): population standard deviation. -/
noncomputable def demandStd (g : ReorderGroup) : ℝ := Real.sqrt (demandVar g)

/-- safety_stock (line 42): service_level_z * std_demand * lead_time ** 0.5. -/
noncomputable def safetyStock (z : ℚ) (g : ReorderGroup) (lt : ℚ) : ℝ :=
  (z : ℝ) * demandStd g * Real.sqrt (lt : ℝ)

/-- reorder_point (line 43): avg_demand * lead_time + safety_stock. -/
noncomputable def reorderPoint (z : ℚ) (g : ReorderGroup) (lt : ℚ) : ℝ :=
  (avgDemand g : ℝ) * (lt : ℝ) + safetyStock z g lt

open Classical in
/-- Python round(x) on a real, round half to even. -/
noncomputable def pyRoundR (x : ℝ) : ℤ :=
  if x - ⌊x⌋ = 1/2 then (if 2 ∣ ⌊x⌋ then ⌊x⌋ else ⌊x⌋ + 1) else round x

/-- Python round(x, n) on a real. -/
noncomputable def roundR (n : ℕ) (x : ℝ) : ℝ :=
  (pyRoundR ((10:ℝ)^n * x) : ℝ) / (10:ℝ)^n

/-- One output row of compute_reorder_point (the dict of lines 45-52). -/
structure ReorderRow where
  facility : String
  item : String
  avg_daily_demand : ℚ
  lead_time_days : ℚ
  safety_stock : ℝ
  reorder_point : ℝ

/-- The row appended for a group with known mean lead time lt. -/
noncomputable def mkReorderRow (z : ℚ) (g : ReorderGroup) (lt : ℚ) : ReorderRow :=
  { facility := g.facility, item := g.item,
    avg_daily_demand := roundQ 2 (avgDemand g),
    lead_time_days := roundQ 1 lt,
    safety_stock := roundR 2 (safetyStock z g lt),
    reorder_point := roundR 2 (reorderPoint z g lt) }

/-- ReorderAgent.compute_reorder_point (lines 34-54): the group loop with the
continue on a null mean lead time. -/
noncomputable def compute_reorder_point (z : ℚ) :
    List ReorderGroup → List ReorderRow
  | [] => []
  | g :: gs =>
    match seriesMeanSkipNa g.lead_times with
    | none => compute_reorder_point z gs
    | some lt => mkReorderRow z g lt :: compute_reorder_point z gs

/-- The group of the C6 counterexample: lead time 0, so the claim would
exclude it. -/
def gZero : ReorderGroup :=
  { facility := "f2", item := "i2", demands := [5, 5],
    lead_times := [some 0] }

/-- Constant-demand group of the C8 counterexample. -/
def gConst : ReorderGroup :=
  { facility := "f", item := "i", demands := [5, 5], lead_times := [some 7] }

/-- Positive-variance group of the C8 witness. -/
def gVar : ReorderGroup :=
  { facility := "f", item := "i", demands := [1, 3], lead_times := [some 4] }

end HealthAI

/-- Counterexample for C6: the group gZero has merged lead_time_days 0, which
is not positive, yet compute_reorder_point keeps its (facility, item) pair in
the result: only a null merged lead time is excluded. -/
theorem C6_counterexample :
    HealthAI.seriesMeanSkipNa HealthAI.gZero.lead_times = some 0 ∧
    (HealthAI.compute_reorder_point (33/20) [HealthAI.gZero]).map
      (fun r => (r.facility, r.item)) = [("f2", "i2")] := by
  constructor
  · show HealthAI.seriesMeanSkipNa [some 0] = some 0
    norm_num [HealthAI.seriesMeanSkipNa, List.filterMap_cons, List.filterMap_nil]
  · rfl

/-- Claim C6 amended: compute_reorder_point excludes exactly the groups whose
merged lead_time_days is missing (every lead-time cell null, so the skip-NaN
mean is null) and returns one row, in order, for every remaining group; a
group whose merged lead time is 0 or negative is still returned.  The
partial-result policy itself holds: a skipped group never aborts the batch. -/
theorem C6_missing_lead_time_partial (z : ℚ)
    (gs : List HealthAI.ReorderGroup) :
    (HealthAI.compute_reorder_point z gs).map (fun r => (r.facility, r.item))
      = (gs.filter
          (fun g => (HealthAI.seriesMeanSkipNa g.lead_times).isSome)).map
          (fun g => (g.facility, g.item)) := by
  induction gs with
  | nil => rfl
  | cons g gs ih =>
    cases h : HealthAI.seriesMeanSkipNa g.lead_times with
    | none =>
      rw [HealthAI.compute_reorder_point, h, List.filter_cons]
      simp only [h, Option.isSome_none, Bool.false_eq_true, if_false]
      exact ih
    | some lt =>
      rw [HealthAI.compute_reorder_point, h, List.filter_cons]
      simp only [h, Option.isSome_some, if_true, List.map_cons]
      rw [ih]
      rfl

/-- Claim C8 amended: for any increase of service_level_z, safety_stock =
z * std * sqrt(lead_time) and reorder_point = avg * lead_time + safety_stock
(the line 42-43 values) both weakly increase, and each increase is strict if
and only if the demand series has positive variance and the lead time is
positive; in particular for a constant demand series (variance 0) both are
unchanged by z. -/
theorem C8_service_level_monotone (z1 z2 lt : ℚ) (g : HealthAI.ReorderGroup)
    (hz : z1 < z2) :
    (HealthAI.safetyStock z1 g lt ≤ HealthAI.safetyStock z2 g lt ∧
      HealthAI.reorderPoint z1 g lt ≤ HealthAI.reorderPoint z2 g lt) ∧
    (HealthAI.safetyStock z1 g lt < HealthAI.safetyStock z2 g lt ↔
      0 < HealthAI.demandVar g ∧ 0 < lt) ∧
    (HealthAI.reorderPoint z1 g lt < HealthAI.reorderPoint z2 g lt ↔
      0 < HealthAI.demandVar g ∧ 0 < lt) := by
  have hrw : ∀ z : ℚ, HealthAI.safetyStock z g lt
      = (z : ℝ) * (HealthAI.demandStd g * Real.sqrt (lt : ℝ)) := by
    intro z
    rw [HealthAI.safetyStock, mul_assoc]
  have hc0 : 0 ≤ HealthAI.demandStd g * Real.sqrt (lt : ℝ) :=
    mul_nonneg (Real.sqrt_nonneg _) (Real.sqrt_nonneg _)
  have hzR : (z1 : ℝ) < (z2 : ℝ) := by exact_mod_cast hz
  have hkey : (0 < HealthAI.demandVar g ∧ 0 < lt) ↔
      0 < HealthAI.demandStd g * Real.sqrt (lt : ℝ) := by
    constructor
    · rintro ⟨hv, hl⟩
      exact mul_pos (Real.sqrt_pos.mpr (by exact_mod_cast hv))
        (Real.sqrt_pos.mpr (by exact_mod_cast hl))
    · intro hpos
      have h1 : 0 < HealthAI.demandStd g := by
        by_contra h
        push_neg at h
        rw [le_antisymm h (Real.sqrt_nonneg _), zero_mul] at hpos
        exact lt_irrefl 0 hpos
      have h2 : 0 < Real.sqrt (lt : ℝ) := by
        by_contra h
        push_neg at h
        rw [le_antisymm h (Real.sqrt_nonneg _), mul_zero] at hpos
        exact lt_irrefl 0 hpos
      rw [HealthAI.demandStd] at h1
      exact ⟨by exact_mod_cast Real.sqrt_pos.mp h1,
        by exact_mod_cast Real.sqrt_pos.mp h2⟩
  have hssIff : (HealthAI.safetyStock z1 g lt < HealthAI.safetyStock z2 g lt)
      ↔ 0 < HealthAI.demandStd g * Real.sqrt (lt : ℝ) := by
    rw [hrw z1, hrw z2]
    constructor
    · intro hstrict
      rcases lt_or_eq_of_le hc0 with h | h
      · exact h
      · rw [← h, mul_zero, mul_zero] at hstrict
        exact absurd hstrict (lt_irrefl 0)
    · intro hpos
      exact mul_lt_mul_of_pos_right hzR hpos
  have hrpIff : (HealthAI.reorderPoint z1 g lt < HealthAI.reorderPoint z2 g lt)
      ↔ (HealthAI.safetyStock z1 g lt < HealthAI.safetyStock z2 g lt) := by
    rw [HealthAI.reorderPoint, HealthAI.reorderPoint]
    exact add_lt_add_iff_left _
  have hssLe : HealthAI.safetyStock z1 g lt ≤ HealthAI.safetyStock z2 g lt := by
    rw [hrw z1, hrw z2]
    exact mul_le_mul_of_nonneg_right hzR.le hc0
  refine ⟨⟨hssLe, ?_⟩, hssIff.trans hkey.symm,
    hrpIff.trans (hssIff.trans hkey.symm)⟩
  rw [HealthAI.reorderPoint, HealthAI.reorderPoint]
  exact add_le_add_left hssLe _

/-- Witness for C8 amended: on the group with demands [1, 3] (variance 1) and
lead time 4, raising z from 1 to 2 strictly raises both values. -/
theorem C8_service_level_monotone_witness :
    HealthAI.safetyStock 1 HealthAI.gVar 4 < HealthAI.safetyStock 2 HealthAI.gVar 4 ∧
    HealthAI.reorderPoint 1 HealthAI.gVar 4 < HealthAI.reorderPoint 2 HealthAI.gVar 4 :=
  ⟨(C8_service_level_monotone 1 2 4 HealthAI.gVar (by norm_num)).2.1.mpr
      ⟨by norm_num [HealthAI.demandVar, HealthAI.avgDemand, HealthAI.gVar],
        by norm_num⟩,
    (C8_service_level_monotone 1 2 4 HealthAI.gVar (by norm_num)).2.2.mpr
      ⟨by norm_num [HealthAI.demandVar, HealthAI.avgDemand, HealthAI.gVar],
        by norm_num⟩⟩

/-- Counterexample for C8: on the constant demand series [5, 5] the demand
standard deviation is 0, so raising service_level_z from 1 to 2 leaves both
safety_stock and reorder_point unchanged, although the pair stays in the
output of compute_reorder_point. -/
theorem C8_counterexample :
    (HealthAI.compute_reorder_point 1 [HealthAI.gConst]).map
      (fun r => (r.facility, r.item)) = [("f", "i")] ∧
    ¬ (HealthAI.safetyStock 1 HealthAI.gConst 7
        < HealthAI.safetyStock 2 HealthAI.gConst 7) ∧
    ¬ (HealthAI.reorderPoint 1 HealthAI.gConst 7
        < HealthAI.reorderPoint 2 HealthAI.gConst 7) := by
  have hv : HealthAI.demandVar HealthAI.gConst = 0 := by
    norm_num [HealthAI.demandVar, HealthAI.avgDemand, HealthAI.gConst]
  have hss : ∀ z : ℚ, HealthAI.safetyStock z HealthAI.gConst 7 = 0 := by
    intro z
    rw [HealthAI.safetyStock, HealthAI.demandStd, hv]
    simp
  refine ⟨rfl, ?_, ?_⟩
  · rw [hss 1, hss 2]
    exact lt_irrefl 0
  · rw [HealthAI.reorderPoint, HealthAI.reorderPoint, hss 1, hss 2]
    exact lt_irrefl _

/-- Witness for C1 at a one-day series with demand 3 and stock 5. -/
theorem C1_simulate_stock_nonneg_witness :
    0 ≤ ((HealthAI.simulate HealthAI.p1 5 HealthAI.days1).headD
      HealthAI.someRow).stock_on_hand := by
  refine C1_simulate_stock_nonneg HealthAI.p1 5 HealthAI.days1 (by norm_num)
    ?_ _ ?_
  · intro d hd
    simp only [HealthAI.days1, List.mem_singleton] at hd
    subst hd
    norm_num
  · have h : HealthAI.simulate HealthAI.p1 5 HealthAI.days1
        = [(HealthAI.simStep HealthAI.p1 (5, [])
            { ds := 0, forecast := some 3, lead_time := 7 }).2] := rfl
    rw [h]
    simp

namespace HealthAI

/-!
## Rounding and step lemmas used by the C4 and C5 theorems
-/

theorem pyRoundQ_intCast (n : ℤ) : pyRoundQ (n : ℚ) = n := by
  rw [pyRoundQ, Int.floor_intCast]
  rw [if_neg (by norm_num)]
  exact round_intCast n

theorem roundQ_intCast (k : ℕ) (n : ℤ) : roundQ k (n : ℚ) = (n : ℚ) := by
  rw [roundQ]
  have h : (10:ℚ)^k * (n:ℚ) = ((10^k * n : ℤ) : ℚ) := by push_cast; ring
  rw [h, pyRoundQ_intCast]
  push_cast
  rw [mul_comm, mul_div_assoc, div_self (by positivity : ((10:ℚ)^k) ≠ 0)]
  ring

theorem roundQ_zero (k : ℕ) : roundQ k (0 : ℚ) = 0 := by
  have h := roundQ_intCast k 0
  simpa using h

theorem simStep_reorder_fields (p : SimParams) (st : ℚ × Pending)
    (d : DayInput) :
    (simStep p st d).2.reorder_now
      = (orderDecision p (stepPosition st d)
          (receiveStock st.1 st.2 d.ds).2 d.ds (ltDaysOf d.lead_time)).1 ∧
    (simStep p st d).2.order_qty
      = roundQ 2 (orderDecision p (stepPosition st d)
          (receiveStock st.1 st.2 d.ds).2 d.ds (ltDaysOf d.lead_time)).2.1 ∧
    (simStep p st d).2.order_arrival_ds
      = (orderDecision p (stepPosition st d)
          (receiveStock st.1 st.2 d.ds).2 d.ds (ltDaysOf d.lead_time)).2.2.1 :=
  ⟨rfl, rfl, rfl⟩

theorem orderDecision_fires (p : SimParams) (pos : ℚ) (po : Pending)
    (ds lt_days : ℤ) (hco : canOrder p.rp p.avgd = true)
    (hpos : pos ≤ p.rp.getD 0) :
    (orderDecision p pos po ds lt_days).1 = true ∧
    (orderDecision p pos po ds lt_days).2.1
      = max p.min_order_qty (p.avgd.getD 0 * p.order_up_to_days) ∧
    (orderDecision p pos po ds lt_days).2.2.1 = some (ds + lt_days) := by
  have hcond : (canOrder p.rp p.avgd && decide (pos ≤ p.rp.getD 0)) = true := by
    rw [hco, decide_eq_true hpos]
    rfl
  rw [orderDecision, hcond]
  exact ⟨rfl, rfl, rfl⟩

theorem orderDecision_idle (p : SimParams) (pos : ℚ) (po : Pending)
    (ds lt_days : ℤ) (hco : canOrder p.rp p.avgd = false) :
    orderDecision p pos po ds lt_days = (false, 0, none, po) := by
  rw [orderDecision, hco]
  rfl

theorem simStep_orders (p : SimParams) (st : ℚ × Pending) (d : DayInput)
    (hco : canOrder p.rp p.avgd = true)
    (hpos : stepPosition st d ≤ p.rp.getD 0) :
    (simStep p st d).2.reorder_now = true ∧
    (simStep p st d).2.order_qty
      = roundQ 2 (max p.min_order_qty (p.avgd.getD 0 * p.order_up_to_days)) ∧
    (simStep p st d).2.order_arrival_ds
      = some (d.ds + ltDaysOf d.lead_time) := by
  obtain ⟨h1, h2, h3⟩ := simStep_reorder_fields p st d
  obtain ⟨g1, g2, g3⟩ := orderDecision_fires p (stepPosition st d)
    (receiveStock st.1 st.2 d.ds).2 d.ds (ltDaysOf d.lead_time) hco hpos
  exact ⟨h1.trans g1, h2.trans (by rw [g2]), h3.trans g3⟩

theorem simRun_never_orders (p : SimParams) (st : ℚ × Pending)
    (days : List DayInput) (hco : canOrder p.rp p.avgd = false) :
    ∀ row ∈ simRun p st days,
      row.reorder_now = false ∧ row.order_qty = 0 ∧
      row.order_arrival_ds = none := by
  induction days generalizing st with
  | nil => intro row h; simp [simRun] at h
  | cons d ds ih =>
    intro row h
    simp only [simRun, List.mem_cons] at h
    rcases h with h | h
    · obtain ⟨h1, h2, h3⟩ := simStep_reorder_fields p st d
      have hod := orderDecision_idle p (stepPosition st d)
        (receiveStock st.1 st.2 d.ds).2 d.ds (ltDaysOf d.lead_time) hco
      subst h
      refine ⟨h1.trans (by rw [hod]), h2.trans ?_, h3.trans (by rw [hod])⟩
      rw [hod]
      exact roundQ_zero 2
    · exact ih _ row h

/-- Scenario parameters of C4: reorder point 700 and average demand 100, the
values ReorderAgent computes for a constant 100-a-day series with lead time 7
(variance 0, so reorder_point = 100 * 7), with the default order_up_to_days
14 and min_order_qty 0. -/
def pScen : SimParams := { rp := some 700, avgd := some 100 }

/-- Day t of the C4 scenario: demand 100, lead time 7. -/
def dayScen (t : ℕ) : DayInput :=
  { ds := (t : ℤ), forecast := some 100, lead_time := 7 }

/-- The 30-day forecast of the C4 scenario. -/
def scenDays : List DayInput := (List.range 30).map dayScen

/-- The C4 scenario series as a ReorderAgent group: 30 days of demand 100
with lead time 7. -/
def gScen : ReorderGroup :=
  { facility := "f", item := "i", demands := List.replicate 30 100,
    lead_times := [some 7] }

theorem avgDemand_gScen : avgDemand gScen = 100 := by
  rw [avgDemand]
  show ((List.replicate 30 (100:ℚ)).sum) / ((List.replicate 30 (100:ℚ)).length) = 100
  rw [List.sum_replicate, List.length_replicate]
  norm_num

theorem demandVar_gScen : demandVar gScen = 0 := by
  rw [demandVar, avgDemand_gScen]
  show ((List.replicate 30 (100:ℚ)).map (fun x => (x - 100)^2)).sum / _ = 0
  rw [List.map_replicate]
  norm_num [List.sum_replicate]

theorem reorderPoint_gScen : reorderPoint (33/20) gScen 7 = 700 := by
  rw [reorderPoint, safetyStock, demandStd, demandVar_gScen, avgDemand_gScen]
  push_cast
  rw [Real.sqrt_zero]
  norm_num

end HealthAI

/-- Claim C4: whenever reorder parameters are known (reorder point present
and positive average demand) and the post-receive-post-consume inventory
position is at or below the reorder point, the day orders
max(min_order_qty, avg_daily_demand * order_up_to_days) arriving at the
current day plus round(lead_time_days); with unknown parameters the simulator
consumes but never orders; and in the 30-day scenario with demand 100 a day,
lead time 7, starting stock 500 and order_up_to_days 14, the reorder point
computed by ReorderAgent is 700 and the first day (position 400) orders 1400
units arriving exactly 7 days later, on day 7. -/
theorem C4_reorder_policy :
    (∀ (p : HealthAI.SimParams) (st : ℚ × HealthAI.Pending)
        (d : HealthAI.DayInput),
      HealthAI.canOrder p.rp p.avgd = true →
      HealthAI.stepPosition st d ≤ p.rp.getD 0 →
      0 ≤ d.lead_time →
      (HealthAI.simStep p st d).2.reorder_now = true ∧
      (HealthAI.simStep p st d).2.order_qty
        = HealthAI.roundQ 2
            (max p.min_order_qty (p.avgd.getD 0 * p.order_up_to_days)) ∧
      (HealthAI.simStep p st d).2.order_arrival_ds
        = some (d.ds + HealthAI.pyRoundQ d.lead_time)) ∧
    (∀ (p : HealthAI.SimParams) (start : ℚ) (days : List HealthAI.DayInput),
      HealthAI.canOrder p.rp p.avgd = false →
      ∀ row ∈ HealthAI.simulate p start days,
        row.reorder_now = false ∧ row.order_qty = 0 ∧
        row.order_arrival_ds = none) ∧
    (HealthAI.reorderPoint (33/20) HealthAI.gScen 7 = 700 ∧
      ((HealthAI.simulate HealthAI.pScen 500 HealthAI.scenDays).headD
        HealthAI.someRow).reorder_now = true ∧
      ((HealthAI.simulate HealthAI.pScen 500 HealthAI.scenDays).headD
        HealthAI.someRow).order_qty = 1400 ∧
      ((HealthAI.simulate HealthAI.pScen 500 HealthAI.scenDays).headD
        HealthAI.someRow).order_arrival_ds = some 7) := by
  have hco : HealthAI.canOrder HealthAI.pScen.rp HealthAI.pScen.avgd = true := by
    norm_num [HealthAI.canOrder, HealthAI.pScen]
  have hhead : (HealthAI.simulate HealthAI.pScen 500 HealthAI.scenDays).headD
      HealthAI.someRow
      = (HealthAI.simStep HealthAI.pScen (500, []) (HealthAI.dayScen 0)).2 := rfl
  have hposS : HealthAI.stepPosition (500, []) (HealthAI.dayScen 0)
      ≤ HealthAI.pScen.rp.getD 0 := by
    have h1 : HealthAI.stepPosition (500, []) (HealthAI.dayScen 0)
        = max 0 ((500:ℚ) + 0 - 100) + 0 := rfl
    rw [h1, show (500:ℚ) + 0 - 100 = 400 by norm_num,
      max_eq_right (by norm_num : (0:ℚ) ≤ 400)]
    show (400:ℚ) + 0 ≤ 700
    norm_num
  obtain ⟨s1, s2, s3⟩ := HealthAI.simStep_orders HealthAI.pScen (500, [])
    (HealthAI.dayScen 0) hco hposS
  refine ⟨?_, ?_, HealthAI.reorderPoint_gScen, ?_, ?_, ?_⟩
  · intro p st d hc hpos hlt
    obtain ⟨h1, h2, h3⟩ := HealthAI.simStep_orders p st d hc hpos
    refine ⟨h1, h2, h3.trans ?_⟩
    rw [HealthAI.ltDaysOf, max_eq_right (HealthAI.pyRoundQ_nonneg hlt)]
  · intro p start days hc
    exact HealthAI.simRun_never_orders p (start, []) days hc
  · rw [hhead]
    exact s1
  · rw [hhead, s2]
    have hmax : max HealthAI.pScen.min_order_qty
        (HealthAI.pScen.avgd.getD 0 * (HealthAI.pScen.order_up_to_days : ℚ))
        = 1400 := by
      show max 0 ((100:ℚ) * ((14:ℕ) : ℚ)) = 1400
      rw [show ((100:ℚ) * ((14:ℕ) : ℚ)) = 1400 by norm_num]
      exact max_eq_right (by norm_num)
    rw [hmax, show (1400:ℚ) = ((1400:ℤ):ℚ) by norm_num,
      HealthAI.roundQ_intCast]
  · rw [hhead, s3]
    have hlt : HealthAI.ltDaysOf (HealthAI.dayScen 0).lead_time = 7 := by
      rw [HealthAI.ltDaysOf]
      show max 0 (HealthAI.pyRoundQ (7:ℚ)) = 7
      rw [show (7:ℚ) = ((7:ℤ):ℚ) by norm_num, HealthAI.pyRoundQ_intCast]
      rfl
    rw [hlt]
    rfl

/-- Witness for C4: the ordering rule applied at the concrete scenario state
of day 0 (position 400, reorder point 700, lead time 7). -/
theorem C4_reorder_policy_witness :
    (HealthAI.simStep HealthAI.pScen (500, []) (HealthAI.dayScen 0)).2.reorder_now
      = true ∧
    (HealthAI.simStep HealthAI.pScen (500, [])
      (HealthAI.dayScen 0)).2.order_qty
      = HealthAI.roundQ 2 (max HealthAI.pScen.min_order_qty
          (HealthAI.pScen.avgd.getD 0 * (HealthAI.pScen.order_up_to_days : ℚ))) ∧
    (HealthAI.simStep HealthAI.pScen (500, [])
      (HealthAI.dayScen 0)).2.order_arrival_ds
      = some ((HealthAI.dayScen 0).ds
          + HealthAI.pyRoundQ (HealthAI.dayScen 0).lead_time) :=
  C4_reorder_policy.1 HealthAI.pScen (500, []) (HealthAI.dayScen 0)
    (by norm_num [HealthAI.canOrder, HealthAI.pScen])
    (by
      have h1 : HealthAI.stepPosition (500, []) (HealthAI.dayScen 0)
          = max 0 ((500:ℚ) + 0 - 100) + 0 := rfl
      rw [h1, show (500:ℚ) + 0 - 100 = 400 by norm_num,
        max_eq_right (by norm_num : (0:ℚ) ≤ 400)]
      show (400:ℚ) + 0 ≤ 700
      norm_num)
    (by norm_num [HealthAI.dayScen])

namespace HealthAI

/-- Parameters of the C5 counterexample: average demand 1. -/
def p5 : SimParams := { rp := none, avgd := some 1 }

/-- Day of the C5 counterexample: demand 2. -/
def d5 : DayInput := { ds := 0, forecast := some 2, lead_time := 7 }

end HealthAI

/-- Counterexample for C5: with stock 4, average demand 1 and demand 2 today,
the on-hand stock after consumption is 2 and the code reports days_of_cover
2 / 1 = 2, while the claimed formula on_hand / max(avg, demand, eps) gives
2 / 2 = 1: when both are positive the code divides by avg_daily_demand, not
by the larger of the two. -/
theorem C5_counterexample :
    ((HealthAI.simulate HealthAI.p5 4 [HealthAI.d5]).map
      (fun r => r.days_of_cover)) = [2] ∧
    HealthAI.stepOnHand (4, []) HealthAI.d5 = 2 ∧
    HealthAI.roundQ 2 (HealthAI.stepOnHand (4, []) HealthAI.d5
      / max (1:ℚ) (max (HealthAI.d5.forecast.getD 0) (1/1000000))) = 1 ∧
    (2:ℚ) ≠ 1 := by
  have hoh : HealthAI.stepOnHand (4, []) HealthAI.d5 = 2 := by
    have h1 : HealthAI.stepOnHand (4, []) HealthAI.d5
        = max 0 ((4:ℚ) + 0 - 2) := rfl
    rw [h1, show (4:ℚ) + 0 - 2 = 2 by norm_num]
    exact max_eq_right (by norm_num)
  refine ⟨?_, hoh, ?_, by norm_num⟩
  · have h2 : ((HealthAI.simulate HealthAI.p5 4 [HealthAI.d5]).map
        (fun r => r.days_of_cover))
        = [HealthAI.roundQ 2 (HealthAI.stepOnHand (4, []) HealthAI.d5
            / HealthAI.docDenom (some 1) 2)] := rfl
    rw [h2, hoh]
    have h3 : HealthAI.docDenom (some 1) 2 = 1 := by
      rw [HealthAI.docDenom]
      norm_num
    rw [h3, show (2:ℚ)/1 = ((2:ℤ):ℚ) by norm_num, HealthAI.roundQ_intCast]
    norm_num
  · rw [hoh]
    have h4 : max (1:ℚ) (max ((HealthAI.d5.forecast.getD 0)) (1/1000000)) = 2 := by
      show max (1:ℚ) (max 2 (1/1000000)) = 2
      rw [max_eq_left (by norm_num : (1/1000000:ℚ) ≤ 2)]
      exact max_eq_right (by norm_num)
    rw [h4, show (2:ℚ)/2 = ((1:ℤ):ℚ) by norm_num, HealthAI.roundQ_intCast]
    norm_num

/-- Claim C5 amended: every simulated day sets days_of_cover =
round(on_hand / denom, 2) where denom is avg_daily_demand whenever that
parameter is known and positive (regardless of the day's demand), and
max(demand_today, 1e-6) otherwise (unknown or non-positive average). -/
theorem C5_days_of_cover_denominator (p : HealthAI.SimParams)
    (st : ℚ × HealthAI.Pending) (d : HealthAI.DayInput) :
    (∀ a, p.avgd = some a → 0 < a →
      (HealthAI.simStep p st d).2.days_of_cover
        = HealthAI.roundQ 2 (HealthAI.stepOnHand st d / a)) ∧
    (p.avgd = none →
      (HealthAI.simStep p st d).2.days_of_cover
        = HealthAI.roundQ 2 (HealthAI.stepOnHand st d
            / max (d.forecast.getD 0) (1/1000000))) ∧
    (∀ a, p.avgd = some a → a ≤ 0 →
      (HealthAI.simStep p st d).2.days_of_cover
        = HealthAI.roundQ 2 (HealthAI.stepOnHand st d
            / max (d.forecast.getD 0) (1/1000000))) := by
  have hdoc : (HealthAI.simStep p st d).2.days_of_cover
      = HealthAI.roundQ 2 (HealthAI.stepOnHand st d
          / HealthAI.docDenom p.avgd (d.forecast.getD 0)) := rfl
  refine ⟨?_, ?_, ?_⟩
  · intro a ha hpos
    rw [hdoc, ha, HealthAI.docDenom]
    simp [hpos]
  · intro ha
    rw [hdoc, ha, HealthAI.docDenom]
  · intro a ha hnonpos
    rw [hdoc, ha, HealthAI.docDenom]
    simp [not_lt.mpr hnonpos]

/-- Witness for C5 amended at the counterexample day: average demand 1 is
known and positive, so days_of_cover is round(on_hand / 1, 2). -/
theorem C5_days_of_cover_denominator_witness :
    (HealthAI.simStep HealthAI.p5 (4, []) HealthAI.d5).2.days_of_cover
      = HealthAI.roundQ 2 (HealthAI.stepOnHand (4, []) HealthAI.d5 / 1) :=
  (C5_days_of_cover_denominator HealthAI.p5 (4, []) HealthAI.d5).1 1 rfl
    (by norm_num)
